import Mathlib

/-!
Verification development for the Task Aggregation Service of the
phala-tee-cloud-avs repository.

The definitions below are a shallow embedding of the aggregator code in
`src/phala-tee-cloud-avs-lib/src/aggregator/context.rs` and
`src/phala-tee-cloud-avs-lib/src/aggregator/task.rs`, together with the
key constants of `src/phala-tee-cloud-avs-lib/src/lib.rs`.  Stateful Rust
code (methods taking `&mut self`, or mutating state behind `Arc<Mutex<_>>`)
is embedded as explicit state passing: a method becomes a Lean function
from the old context to the new context.  Awaited calls into external
collaborators (the BLS aggregation service, the ledger RPC provider) are
embedded by passing the awaited outcome of the call as an explicit
argument of the function.  Machine integers are modelled as `Nat` with an
explicit `% 2 ^ w` where the code truncates.
-/

set_option autoImplicit false

namespace PhalaAvs

/-- Minimal model of a `serde_json::Value`: JSON values as received by the
    aggregator RPC endpoint.  Numbers are restricted to integers, which is
    all the aggregator data model uses. -/
inductive Json where
  | null
  | bool (b : Bool)
  | num (n : Int)
  | str (s : String)
  | arr (elems : List Json)
  | obj (fields : List (String × Json))

/-- First field of an object with the given key, as association-list
    lookup. -/
def lookupField : List (String × Json) → String → Option Json
  | [], _ => none
  | (k, v) :: rest, key => if k = key then some v else lookupField rest key

/-- Model of `serde_json::Value::get(key)`: key lookup on objects, `none`
    on every other kind of value. -/
def Json.get : Json → String → Option Json
  | .obj fields, key => lookupField fields key
  | _, _ => none

/-- Reading a JSON value as an unsigned machine integer: succeeds exactly
    on non-negative integer numbers. -/
def Json.asNat : Json → Option Nat
  | .num n => if 0 ≤ n then some n.toNat else none
  | _ => none

/-- Modelled from the spec: the `TaskResponse` type is generated by the
    `sol!` macro from the task-manager contract and is not included under
    `src/`.  Per the spec it is "the canonical answer computed for a task
    (opaque payload from this core's perspective) plus a back-reference
    `reference_task_index`"; the field name `referenceTaskIndex` is the one
    the included source reads (`task.rs`, `reference_task_index`).  The
    opaque answer payload is modelled as a single `Nat`. -/
structure TaskResponse where
  referenceTaskIndex : Nat
  payload : Nat
  deriving DecidableEq, Repr

/-- Modelled from the spec: the `Task` type is generated by the `sol!`
    macro and not included under `src/`.  The fields are the ones the
    included source reads (`task.rs`: `taskCreatedBlock`,
    `quorumNumbers`, `quorumThresholdPercentage`); per the spec a task
    "carries the block at which it was created, the set of quorum
    identifiers required to sign it, and a per-quorum threshold
    percentage".  `quorumThresholdPercentage` is an unsigned
    contract-side integer wider than 8 bits (the source casts it with
    `as u8`); it is modelled as a `Nat`. -/
structure Task where
  taskCreatedBlock : Nat
  quorumNumbers : List Nat
  quorumThresholdPercentage : Nat
  deriving DecidableEq, Repr

/-- Modelled from the spec: `SignedTaskResponse` is defined in
    `contexts/client.rs`, which is not included under `src/`.  Per the
    spec it is "a TaskResponse plus an operator identifier and a
    cryptographic signature over its encoding"; the field names
    `task_response`, `signature` and `operator_id` are the ones the
    included source reads (`context.rs`, lines 226-229).  Signature and
    operator identifier are modelled as opaque `Nat`s. -/
structure SignedTaskResponse where
  task_response : TaskResponse
  signature : Nat
  operator_id : Nat
  deriving DecidableEq, Repr

/-- Modelled from the spec: the wire decoding of a `SignedTaskResponse`
    (serde derive on the struct in the missing `contexts/client.rs`).  An
    object decodes iff it carries the three fields of the struct, the
    nested `task_response` object carrying the two fields of
    `TaskResponse`; anything else is malformed. -/
def decodeTaskResponse (j : Json) : Option TaskResponse :=
  match j with
  | .obj _ => do
      let ri ← (← j.get "referenceTaskIndex").asNat
      let pl ← (← j.get "payload").asNat
      pure { referenceTaskIndex := ri, payload := pl }
  | _ => none

/-- Modelled from the spec: serde decoding of the full
    `SignedTaskResponse` wire object. -/
def decodeSignedTaskResponse (j : Json) : Option SignedTaskResponse :=
  match j with
  | .obj _ => do
      let tr ← decodeTaskResponse (← j.get "task_response")
      let sg ← (← j.get "signature").asNat
      let op ← (← j.get "operator_id").asNat
      pure { task_response := tr, signature := sg, operator_id := op }
  | _ => none

/-- Wrapper for `Task` that includes the task index (`task.rs`,
    `IndexedTask`). -/
structure IndexedTask where
  task : Task
  task_index : Nat
  deriving DecidableEq, Repr

/-- Constructor `IndexedTask::new` (`task.rs`, line 25). -/
def IndexedTask.new (task : Task) (task_index : Nat) : IndexedTask :=
  { task := task, task_index := task_index }

/-- Semantics of the Rust cast `as u8` on an unsigned integer: the value
    modulo `2 ^ 8`. -/
def u8Cast (n : Nat) : Nat := n % 2 ^ 8

/-- Accessor `EigenTask::quorum_threshold_percentage` for `IndexedTask`
    (`task.rs`, lines 44-46): `self.task.quorumThresholdPercentage as u8`. -/
def IndexedTask.quorum_threshold_percentage (t : IndexedTask) : Nat :=
  u8Cast t.task.quorumThresholdPercentage

/-- Accessor `EigenTask::created_block` (`task.rs`, lines 36-38). -/
def IndexedTask.created_block (t : IndexedTask) : Nat :=
  t.task.taskCreatedBlock

/-- Accessor `EigenTask::quorum_numbers` (`task.rs`, lines 40-42). -/
def IndexedTask.quorum_numbers (t : IndexedTask) : List Nat :=
  t.task.quorumNumbers

/-- Modelled from the spec: `TaskError` is defined in the crate error
    module that the aggregator imports (`use crate::error::TaskError`),
    which is not included under `src/`.  The variants are the ones the
    aggregator source constructs: `Context` (lines 59, 62, 170, 239, 255,
    257 of `context.rs`), `Parse` (line 164) and `Runtime` (line 198). -/
inductive TaskError where
  | Context (msg : String)
  | Parse (msg : String)
  | Runtime (msg : String)
  deriving DecidableEq, Repr

/-- Error type of the external generic task aggregation library
    (`blueprint_sdk::eigenlayer::generic_task_aggregation::AggregationError`).
    The aggregator source constructs its `ContractError` variant
    (`task.rs`, lines 118 and 121); other variants are abstracted into a
    single catch-all. -/
inductive AggregationError where
  | contractError (msg : String)
  | otherError (msg : String)
  deriving DecidableEq, Repr

/-- Display string of an `AggregationError`, used where the aggregator
    source calls `e.to_string()` on an engine error. -/
def aggErrToString : AggregationError → String
  | .contractError m => "Contract error: " ++ m
  | .otherError m => "Aggregation error: " ++ m

/-- The generic signed response handed to the external engine
    (`GenericSignedTaskResponse` built in `context.rs`, lines 226-230). -/
structure GenericSignedTaskResponse where
  response : TaskResponse
  signature : Nat
  operator_id : Nat
  deriving DecidableEq, Repr

/-- State of the external `TaskAggregator` engine.  Its constructor
    arguments (`TaskAggregator::new(bls_service, response_sender, config)`
    in `context.rs`, line 72) are kept as fields; its internal pipeline
    state is the list of registered tasks and of accepted signed
    responses. -/
structure TaskAggregator where
  blsService : Nat
  senderTaskManagerAddress : Nat
  senderHttpRpcUrl : String
  tasks : List IndexedTask
  responses : List GenericSignedTaskResponse
  deriving DecidableEq, Repr

/-- Modelled from the spec: `process_signed_response` of the external
    engine "returns once the response is accepted into the aggregation
    pipeline"; accepting the response is modelled as appending it to the
    engine state. -/
def TaskAggregator.processSignedResponse (agg : TaskAggregator)
    (resp : GenericSignedTaskResponse) : TaskAggregator :=
  { agg with responses := agg.responses ++ [resp] }

/-- Modelled from the spec: registration of a task with the external
    engine.  The engine call is fallible; its awaited outcome is passed in
    explicitly, and on success the task joins the engine state. -/
def TaskAggregator.registerIndexed (agg : TaskAggregator) (t : IndexedTask)
    (engineOutcome : Except AggregationError Unit) :
    Except AggregationError TaskAggregator :=
  match engineOutcome with
  | .ok _ => .ok { agg with tasks := agg.tasks ++ [t] }
  | .error e => .error e

/-- Model of `BlueprintEnvironment`: the one field the aggregator source
    reads (`env.http_rpc_endpoint`, `context.rs` lines 47 and 67). -/
structure BlueprintEnvironment where
  http_rpc_endpoint : String
  deriving DecidableEq, Repr

/-- The sender of aggregated responses (`task.rs`, lines 66-69). -/
structure SquaringTaskResponseSender where
  task_manager_address : Nat
  http_rpc_url : String
  deriving DecidableEq, Repr

/-- The aggregator context (`context.rs`, lines 23-35).  `wallet` is the
    `EthereumWallet` field, opaque to the aggregator logic and modelled as
    a `Nat`; `shutdownFlag` is the boolean behind the
    `Arc<(Notify, Mutex<bool>)>` shutdown pair; the `Arc<Mutex<_>>`
    around the response cache is elided (state passing makes the
    mutation explicit). -/
structure AggregatorContext where
  port_address : String
  task_manager_address : Nat
  http_rpc_url : String
  wallet : Nat
  response_cache : List SignedTaskResponse
  env : BlueprintEnvironment
  shutdownFlag : Bool
  task_aggregator : Option TaskAggregator
  deriving DecidableEq, Repr

/-- Constructor `AggregatorContext::new` (`context.rs`, lines 38-77).
    The two awaited fallible calls into external collaborators —
    `eigenlayer_client()` and `bls_aggregation_service_in_memory()`
    (lines 56-62) — are embedded as explicit outcome arguments; on error
    each is mapped to `Error::Context(e.to_string())` exactly as in the
    source.  On success the context is built with an empty response
    cache, the shutdown flag unset, and `task_aggregator` set to the
    freshly built engine (line 74). -/
def AggregatorContext.new (port_address : String) (task_manager_address : Nat)
    (wallet : Nat) (env : BlueprintEnvironment)
    (clientOutcome : Except String Unit)
    (blsServiceOutcome : Except String Nat) :
    Except TaskError AggregatorContext :=
  match clientOutcome with
  | .error e => .error (.Context e)
  | .ok _ =>
    match blsServiceOutcome with
    | .error e => .error (.Context e)
    | .ok bls =>
      .ok
        { port_address := port_address
          task_manager_address := task_manager_address
          http_rpc_url := env.http_rpc_endpoint
          wallet := wallet
          response_cache := []
          env := env
          shutdownFlag := false
          task_aggregator := some
            { blsService := bls
              senderTaskManagerAddress := task_manager_address
              senderHttpRpcUrl := env.http_rpc_endpoint
              tasks := []
              responses := [] } }

/-- Method `AggregatorContext::process_signed_task_response`
    (`context.rs`, lines 221-243): converts the `SignedTaskResponse` into
    the generic form, hands it to the engine when one is present, and
    otherwise fails with the not-initialized `Context` error (lines
    239-241). -/
def AggregatorContext.processSignedTaskResponse (ctx : AggregatorContext)
    (resp : SignedTaskResponse) : Except TaskError AggregatorContext :=
  let generic : GenericSignedTaskResponse :=
    { response := resp.task_response
      signature := resp.signature
      operator_id := resp.operator_id }
  match ctx.task_aggregator with
  | some agg =>
    .ok { ctx with task_aggregator := some (agg.processSignedResponse generic) }
  | none => .error (.Context "Task aggregator not initialized")

/-- Method `AggregatorContext::register_task` (`context.rs`, lines
    246-261): builds an `IndexedTask` and registers it with the engine
    when one is present, mapping an engine error through
    `Error::Context(e.to_string())`; otherwise fails with the
    not-initialized `Context` error (lines 257-259).  The awaited engine
    outcome is passed in explicitly. -/
def AggregatorContext.registerTask (ctx : AggregatorContext)
    (task_index : Nat) (task : Task)
    (engineOutcome : Except AggregationError Unit) :
    Except TaskError AggregatorContext :=
  match ctx.task_aggregator with
  | some agg =>
    match agg.registerIndexed (IndexedTask.new task task_index) engineOutcome with
    | .ok agg2 => .ok { ctx with task_aggregator := some agg2 }
    | .error e => .error (.Context (aggErrToString e))
  | none => .error (.Context "Task aggregator not initialized")

/-- Structured RPC error returned by the intake endpoint.  The handler in
    `start_server` only ever builds `jsonrpc_core::Error::invalid_params`
    (lines 136, 142 and 154 of `context.rs`), so one variant carrying the
    human-readable message suffices. -/
inductive JsonRpcError where
  | invalidParams (msg : String)
  deriving DecidableEq, Repr

/-- Display string of a `TaskError`, used where the handler calls
    `e.to_string()` on a processing error (`context.rs`, line 154).  The
    crate error module is not under `src/`; the display text is modelled
    as the carried message. -/
def taskErrToString : TaskError → String
  | .Context m => m
  | .Parse m => m
  | .Runtime m => m

/-- The RPC handler registered for `process_signed_task_response`
    (`context.rs`, lines 126-157), as a state-passing function: given the
    request parameters (already parsed into a JSON value, which is what
    `params.parse::<Value>()` yields) and the locked context, it returns
    the RPC result together with the context after the call.  The source
    message for a missing nested field is rendered without its inner
    quotes. -/
def rpcHandler (ctx : AggregatorContext) (params : Json) :
    Except JsonRpcError Json × AggregatorContext :=
  match params.get "params" with
  | none => (.error (.invalidParams "Missing params field"), ctx)
  | some inner =>
    match decodeSignedTaskResponse inner with
    | none => (.error (.invalidParams "Invalid SignedTaskResponse"), ctx)
    | some signed =>
      match ctx.processSignedTaskResponse signed with
      | .ok ctx2 => (.ok (.bool true), ctx2)
      | .error e => (.error (.invalidParams (taskErrToString e)), ctx)

/-- Cross-origin policy values of the HTTP server
    (`jsonrpc_http_server::AccessControlAllowOrigin`). -/
inductive CorsOrigin where
  | any
  | value (origin : String)
  deriving DecidableEq, Repr

/-- The RPC methods `start_server` registers on its `IoHandler`: exactly
    one `add_method` call, for `process_signed_task_response`, installing
    the handler above (`context.rs`, lines 125-157). -/
def startServerMethods :
    List (String × (AggregatorContext → Json → Except JsonRpcError Json × AggregatorContext)) :=
  [("process_signed_task_response", rpcHandler)]

/-- The cross-origin configuration `start_server` installs:
    `DomainsValidation::AllowOnly(vec![AccessControlAllowOrigin::Any])`
    (`context.rs`, lines 166-168). -/
def startServerCors : List CorsOrigin :=
  [CorsOrigin.any]

/-- Whether a cross-origin request from the given origin is allowed by an
    allow-list policy: `AccessControlAllowOrigin::Any` admits every
    origin, a concrete entry admits only its own origin. -/
def corsAllows (allowed : List CorsOrigin) (origin : String) : Bool :=
  allowed.any fun entry =>
    match entry with
    | .any => true
    | .value v => v = origin

/-- Mutexes in the aggregator server.  `start` wraps the whole context in
    a single `Arc<Mutex<Self>>` (`context.rs`, line 80); that mutex is
    the only lock the RPC handler takes. -/
inductive LockId where
  | contextLock
  deriving DecidableEq, Repr

/-- The pieces of shared state reachable under a lock. -/
inductive StateComponent where
  | taskRegistry
  | responseCache
  | engineState
  | walletState
  | serverConfig
  deriving DecidableEq, Repr

/-- An inbound submit request, identified by the task it concerns and the
    submitting operator. -/
structure RpcRequest where
  taskIndex : Nat
  operatorId : Nat
  deriving DecidableEq, Repr

/-- The lock the RPC handler acquires to serve a request: the handler
    body runs `aggregator.lock().await.process_signed_task_response(..)`
    (`context.rs`, lines 148-152), holding the context mutex for the
    whole call, whatever task the request concerns. -/
def handlerLockAcquired (_req : RpcRequest) : LockId :=
  LockId.contextLock

/-- The state guarded by each lock: the single context mutex guards the
    entire `AggregatorContext`, hence every component at once. -/
def lockGuardedComponents : LockId → List StateComponent
  | .contextLock =>
    [.taskRegistry, .responseCache, .engineState, .walletState, .serverConfig]

/-- Two requests contend when serving them acquires the same mutex. -/
def requestsContend (r1 r2 : RpcRequest) : Prop :=
  handlerLockAcquired r1 = handlerLockAcquired r2

instance (r1 r2 : RpcRequest) : Decidable (requestsContend r1 r2) := by
  unfold requestsContend; infer_instance

/-- Events the aggregator writes to its log. -/
inductive LogEvent where
  | info (msg : String)
  | error (msg : String)
  | debug (msg : String)
  deriving DecidableEq, Repr

/-- Awaited outcome of `tokio::time::timeout(grace, task_agg.stop())` in
    `shutdown` (`context.rs`, line 107): the engine stopped in time,
    returned an error in time, or the grace period elapsed first. -/
inductive StopOutcome where
  | stopped
  | stopFailed (msg : String)
  | timedOut
  deriving DecidableEq, Repr

/-- The fixed grace period `shutdown` gives the engine stop:
    `Duration::from_secs(10)` (`context.rs`, line 107). -/
def shutdownGracePeriodSecs : Nat := 10

/-- Observable result of a `shutdown` call: the log it wrote, the context
    afterwards, and the value returned to the caller (the Rust method
    returns `()`). -/
structure ShutdownResult where
  logs : List LogEvent
  ctx : AggregatorContext
  ret : Unit
  deriving Repr

/-- Method `AggregatorContext::shutdown` (`context.rs`, lines 103-122):
    logs the start of shutdown; when an engine is present, races its
    `stop()` against the 10-second grace period and logs the outcome
    (success at info level, stop error or grace-period expiry at error
    level) — on expiry the stop future is dropped and shutdown simply
    proceeds; then sets the shutdown flag, notifies waiters and logs
    that the flag is set.  The method returns unit. -/
def AggregatorContext.shutdown (ctx : AggregatorContext)
    (stopOutcome : StopOutcome) : ShutdownResult :=
  let stopLog :=
    match ctx.task_aggregator with
    | some _ =>
      match stopOutcome with
      | .stopped => LogEvent.info "Task aggregator stopped successfully"
      | .stopFailed e => LogEvent.error ("Error stopping task aggregator: " ++ e)
      | .timedOut => LogEvent.error "Timeout while stopping task aggregator"
    | none => LogEvent.info "No task aggregator to stop"
  { logs :=
      [LogEvent.info "Initiating aggregator shutdown", stopLog,
        LogEvent.debug "Aggregator shutdown flag set"]
    ctx := { ctx with shutdownFlag := true }
    ret := () }

/-- Affine G1 curve point as sent to the contract (`BN254::G1Point`).
    The coordinates are opaque to the aggregator logic. -/
structure G1Point where
  X : Nat
  Y : Nat
  deriving DecidableEq, Repr

/-- Affine G2 curve point as sent to the contract (`BN254::G2Point`). -/
structure G2Point where
  X : Nat × Nat
  Y : Nat × Nat
  deriving DecidableEq, Repr

/-- The aggregation result delivered by the external BLS aggregation
    service (`BlsAggregationServiceResponse`), with the fields
    `send_aggregated_response` reads (`task.rs`, lines 93-110).  Curve
    points are modelled already in affine form, so the (external,
    panicking-on-invalid-input) conversions `to_g1_point`/`to_g2_point`
    become plain coordinate repackaging. -/
structure BlsAggregationServiceResponse where
  non_signers_pub_keys_g1 : List G1Point
  non_signer_quorum_bitmap_indices : List Nat
  quorum_apks_g1 : List G1Point
  signers_apk_g2 : G2Point
  signers_agg_sig_g1 : G1Point
  quorum_apk_indices : List Nat
  total_stake_indices : List Nat
  non_signer_stake_indices : List (List Nat)
  deriving DecidableEq, Repr

/-- The proof structure the contract call takes
    (`IBLSSignatureCheckerTypes::NonSignerStakesAndSignature`), with the
    fields built in `task.rs`, lines 93-110. -/
structure NonSignerStakesAndSignature where
  nonSignerPubkeys : List G1Point
  nonSignerQuorumBitmapIndices : List Nat
  quorumApks : List G1Point
  apkG2 : G2Point
  sigma : G1Point
  quorumApkIndices : List Nat
  totalStakeIndices : List Nat
  nonSignerStakeIndices : List (List Nat)
  deriving DecidableEq, Repr

/-- Conversion `to_g1_point` (`task.rs`, lines 128-131) with the points
    modelled in affine form. -/
def to_g1_point (p : G1Point) : G1Point :=
  { X := p.X, Y := p.Y }

/-- Conversion `to_g2_point` (`task.rs`, lines 133-136) with the points
    modelled in affine form. -/
def to_g2_point (p : G2Point) : G2Point :=
  { X := p.X, Y := p.Y }

/-- The proof structure built inside `send_aggregated_response`
    (`task.rs`, lines 93-110), field by field from the aggregation
    result. -/
def buildNonSignerStakesAndSignature (r : BlsAggregationServiceResponse) :
    NonSignerStakesAndSignature :=
  { nonSignerPubkeys := r.non_signers_pub_keys_g1.map to_g1_point
    nonSignerQuorumBitmapIndices := r.non_signer_quorum_bitmap_indices
    quorumApks := r.quorum_apks_g1.map to_g1_point
    apkG2 := to_g2_point r.signers_apk_g2
    sigma := to_g1_point r.signers_agg_sig_g1
    quorumApkIndices := r.quorum_apk_indices
    totalStakeIndices := r.total_stake_indices
    nonSignerStakeIndices := r.non_signer_stake_indices }

/-- The ledger transaction `send_aggregated_response` assembles: which
    key signs it, which account it is sent from, which contract it
    targets, and the call payload
    `respondToSquaringTask(task, response, nonSignerStakesAndSignature)`. -/
structure EthTx where
  signerKey : String
  fromAddr : String
  toAddr : Nat
  callTask : Task
  callResponse : TaskResponse
  callProof : NonSignerStakesAndSignature
  deriving DecidableEq, Repr

/-- The transaction assembled by
    `SquaringTaskResponseSender::send_aggregated_response` (`task.rs`,
    lines 85-116): the provider is built from the private-key string
    literal hardcoded at line 86, the contract is the sender's task
    manager address, and the call is sent `.from` the address literal
    hardcoded at line 115. -/
def SquaringTaskResponseSender.assembledTx (s : SquaringTaskResponseSender)
    (indexed_task : IndexedTask) (response : TaskResponse)
    (aggregation_result : BlsAggregationServiceResponse) : EthTx :=
  { signerKey := "0x2a871d0798f97d79848a013d4936a73bf4cc922c825d33c1cf7073dff6d409c6"
    fromAddr := "a0Ee7A142d267C1f36714E4a8F75612F20a79720"
    toAddr := s.task_manager_address
    callTask := indexed_task.task
    callResponse := response
    callProof := buildNonSignerStakesAndSignature aggregation_result }

/-- Awaited outcomes of the two ledger interactions in
    `send_aggregated_response`: `.send()` (submit the transaction to the
    provider) and `.get_receipt()` (wait for the ledger to confirm
    inclusion).  A receipt error covers both rejection and the
    provider-side wait timing out. -/
structure LedgerOutcome where
  sendResult : Except String Unit
  receiptResult : Except String Unit
  deriving Repr

/-- Method `SquaringTaskResponseSender::send_aggregated_response`
    (`task.rs`, lines 74-125) as a function of the awaited ledger
    outcomes: assembles the transaction, submits it, and waits for a
    receipt; each ledger failure is mapped to
    `AggregationError::ContractError(e.to_string())` (lines 118 and 121)
    and returned as a value; `Ok(())` only once a receipt confirms
    inclusion. -/
def SquaringTaskResponseSender.sendAggregatedResponse
    (s : SquaringTaskResponseSender) (indexed_task : IndexedTask)
    (response : TaskResponse)
    (aggregation_result : BlsAggregationServiceResponse)
    (ledger : LedgerOutcome) : Except AggregationError Unit :=
  let _tx := s.assembledTx indexed_task response aggregation_result
  match ledger.sendResult with
  | .error e => .error (.contractError e)
  | .ok _ =>
    match ledger.receiptResult with
    | .error e => .error (.contractError e)
    | .ok _ => .ok ()

/-- A process environment: the value, if any, of each environment
    variable. -/
def EnvMap : Type := String → Option String

/-- Constant `PRIVATE_KEY` (`lib.rs`, lines 27-29): the value of the
    environment variable `PRIVATE_KEY`, with a hardcoded default. -/
def PRIVATE_KEY (env : EnvMap) : String :=
  (env "PRIVATE_KEY").getD
    "ac0974bec39a17e36ba4a6b4d238ff944bacb478cbed5efcae784d7bf4f2ff80"

/-- Constant `AGGREGATOR_PRIVATE_KEY` (`lib.rs`, lines 30-32): also the
    value of the environment variable `PRIVATE_KEY` (not of a separate
    aggregator-specific variable), with a different hardcoded default. -/
def AGGREGATOR_PRIVATE_KEY (env : EnvMap) : String :=
  (env "PRIVATE_KEY").getD
    "2a871d0798f97d79848a013d4936a73bf4cc922c825d33c1cf7073dff6d409c6"

/-- The transaction the running system submits for a quorum-reached
    task, as a function of the full configuration: the aggregator context
    (carrying the configured wallet) and the process environment.  The
    sender is built from the context exactly as `AggregatorContext::new`
    builds it (`context.rs`, lines 65-68); the wallet field and the
    environment are threaded through to expose that the assembled
    transaction does not depend on them. -/
def submissionTx (ctx : AggregatorContext) (_env : EnvMap)
    (indexed_task : IndexedTask) (response : TaskResponse)
    (aggregation_result : BlsAggregationServiceResponse) : EthTx :=
  let sender : SquaringTaskResponseSender :=
    { task_manager_address := ctx.task_manager_address
      http_rpc_url := ctx.http_rpc_url }
  sender.assembledTx indexed_task response aggregation_result

/-! Concrete fixtures: small closed inputs on which the theorems below are
    instantiated. -/

/-- A concrete environment configuration. -/
def sampleEnv : BlueprintEnvironment :=
  { http_rpc_endpoint := "http://localhost:8545" }

/-- The engine state `AggregatorContext::new` builds on the sample
    inputs. -/
def sampleAggregator : TaskAggregator :=
  { blsService := 1
    senderTaskManagerAddress := 5
    senderHttpRpcUrl := "http://localhost:8545"
    tasks := []
    responses := [] }

/-- The context `AggregatorContext::new "127.0.0.1:8081" 5 7 sampleEnv`
    yields when both external calls succeed. -/
def sampleCtx : AggregatorContext :=
  { port_address := "127.0.0.1:8081"
    task_manager_address := 5
    http_rpc_url := "http://localhost:8545"
    wallet := 7
    response_cache := []
    env := sampleEnv
    shutdownFlag := false
    task_aggregator := some sampleAggregator }

/-- A concrete task response. -/
def sampleTaskResponse : TaskResponse :=
  { referenceTaskIndex := 0, payload := 4 }

/-- A concrete signed task response. -/
def sampleSigned : SignedTaskResponse :=
  { task_response := sampleTaskResponse, signature := 11, operator_id := 3 }

/-- The generic form of `sampleSigned` handed to the engine. -/
def sampleGeneric : GenericSignedTaskResponse :=
  { response := sampleTaskResponse, signature := 11, operator_id := 3 }

/-- The context after `sampleCtx` processes `sampleSigned`. -/
def sampleProcessedCtx : AggregatorContext :=
  { sampleCtx with
    task_aggregator := some { sampleAggregator with responses := [sampleGeneric] } }

/-- The wire encoding of `sampleSigned`. -/
def sampleSignedJson : Json :=
  .obj
    [("task_response",
        .obj [("referenceTaskIndex", .num 0), ("payload", .num 4)]),
      ("signature", .num 11),
      ("operator_id", .num 3)]

/-- A well-formed RPC payload: an object with a nested `params` field
    holding the encoded signed response. -/
def sampleValidParams : Json :=
  .obj [("params", sampleSignedJson)]

/-- A malformed RPC payload missing the nested `params` field. -/
def sampleMissingParams : Json :=
  .obj [("jsonrpc", .str "2.0")]

/-- A malformed RPC payload whose `params` value does not decode into a
    `SignedTaskResponse`. -/
def sampleBadParams : Json :=
  .obj [("params", .str "gibberish")]

/-- A concrete task with a threshold value above 255. -/
def sampleWideTask : IndexedTask :=
  { task :=
      { taskCreatedBlock := 10
        quorumNumbers := [0]
        quorumThresholdPercentage := 300 }
    task_index := 2 }

/-- A concrete indexed task. -/
def sampleIndexedTask : IndexedTask :=
  { task :=
      { taskCreatedBlock := 3
        quorumNumbers := [0]
        quorumThresholdPercentage := 67 }
    task_index := 0 }

/-- A concrete response sender. -/
def sampleSender : SquaringTaskResponseSender :=
  { task_manager_address := 5, http_rpc_url := "http://localhost:8545" }

/-- A concrete aggregation result. -/
def sampleAggResult : BlsAggregationServiceResponse :=
  { non_signers_pub_keys_g1 := [{ X := 1, Y := 2 }]
    non_signer_quorum_bitmap_indices := [0]
    quorum_apks_g1 := [{ X := 3, Y := 4 }]
    signers_apk_g2 := { X := (5, 6), Y := (7, 8) }
    signers_agg_sig_g1 := { X := 9, Y := 10 }
    quorum_apk_indices := [0]
    total_stake_indices := [0]
    non_signer_stake_indices := [[0]] }

/-- A ledger run in which the transaction is submitted but the receipt
    wait fails (rejected or timed out). -/
def sampleFailLedger : LedgerOutcome :=
  { sendResult := .ok (), receiptResult := .error "tx rejected" }

/-- A concrete process environment in which `PRIVATE_KEY` is set. -/
def sampleEnvMap : EnvMap :=
  fun k => if k = "PRIVATE_KEY" then some "aa" else none

/-- A request concerning task 0. -/
def sampleReqA : RpcRequest := { taskIndex := 0, operatorId := 0 }

/-- A request concerning a different, unrelated task. -/
def sampleReqB : RpcRequest := { taskIndex := 1, operatorId := 1 }

/-! Theorems settling the claims. -/

/-- C1: every RPC request to `process_signed_task_response` whose payload
    is malformed — one missing the nested `params` field, or one whose
    `params` value does not decode into a well-formed
    `SignedTaskResponse` — makes the handler return an `InvalidParams`
    error and leaves the whole context (registry, aggregation engine,
    response cache) unchanged. -/
theorem rpc_malformed_rejected (ctx : AggregatorContext) (params : Json)
    (h : params.get "params" = none ∨
      ∃ inner, params.get "params" = some inner ∧
        decodeSignedTaskResponse inner = none) :
    (∃ msg, (rpcHandler ctx params).1 = .error (.invalidParams msg)) ∧
      (rpcHandler ctx params).2 = ctx := by
  rcases h with h | ⟨inner, hin, hdec⟩
  · exact ⟨⟨"Missing params field", by simp [rpcHandler, h]⟩, by simp [rpcHandler, h]⟩
  · exact ⟨⟨"Invalid SignedTaskResponse", by simp [rpcHandler, hin, hdec]⟩,
      by simp [rpcHandler, hin, hdec]⟩

/-- C1 witness: the handler run on a concrete payload missing the nested
    `params` field. -/
theorem rpc_malformed_rejected_witness :
    (∃ msg, (rpcHandler sampleCtx sampleMissingParams).1 = .error (.invalidParams msg)) ∧
      (rpcHandler sampleCtx sampleMissingParams).2 = sampleCtx :=
  rpc_malformed_rejected sampleCtx sampleMissingParams (Or.inl rfl)

/-- C2: every RPC request whose payload carries a nested `params` field
    decoding into a well-formed `SignedTaskResponse` is, when the task
    aggregator is initialized, forwarded to the engine via
    `process_signed_response` (the decoded response, in generic form,
    joins the aggregation pipeline) and the handler returns the boolean
    value `true`. -/
theorem rpc_valid_forwarded (ctx : AggregatorContext) (params inner : Json)
    (signed : SignedTaskResponse) (agg : TaskAggregator)
    (hp : params.get "params" = some inner)
    (hd : decodeSignedTaskResponse inner = some signed)
    (ha : ctx.task_aggregator = some agg) :
    rpcHandler ctx params =
      (.ok (.bool true),
        { ctx with
          task_aggregator := some
            { agg with
              responses := agg.responses ++
                [{ response := signed.task_response
                   signature := signed.signature
                   operator_id := signed.operator_id }] } }) := by
  simp [rpcHandler, hp, hd, AggregatorContext.processSignedTaskResponse, ha,
    TaskAggregator.processSignedResponse]

/-- C2 witness: the handler run on a concrete well-formed payload. -/
theorem rpc_valid_forwarded_witness :
    rpcHandler sampleCtx sampleValidParams =
      (.ok (.bool true),
        { sampleCtx with
          task_aggregator := some
            { sampleAggregator with
              responses := sampleAggregator.responses ++
                [{ response := sampleSigned.task_response
                   signature := sampleSigned.signature
                   operator_id := sampleSigned.operator_id }] } }) :=
  rpc_valid_forwarded sampleCtx sampleValidParams sampleSignedJson sampleSigned
    sampleAggregator rfl rfl rfl

/-- C3: `send_aggregated_response` returns success only once the ledger
    has confirmed inclusion (both the submission and the receipt wait
    succeeded); when the submission or the receipt wait fails — covering
    ledger rejection and the wait timing out — the failure is surfaced as
    a returned error value (`AggregationError::ContractError`, the
    code-level form of the submission-failure error) to the engine state
    machine; no failing run escapes without a returned value. -/
theorem send_aggregated_response_surfaces_failure
    (s : SquaringTaskResponseSender) (t : IndexedTask) (r : TaskResponse)
    (a : BlsAggregationServiceResponse) (ledger : LedgerOutcome) :
    (s.sendAggregatedResponse t r a ledger = .ok () ↔
      ledger.sendResult = .ok () ∧ ledger.receiptResult = .ok ()) ∧
    (∀ e, ledger.sendResult = .error e →
      s.sendAggregatedResponse t r a ledger = .error (.contractError e)) ∧
    (∀ e, ledger.sendResult = .ok () → ledger.receiptResult = .error e →
      s.sendAggregatedResponse t r a ledger = .error (.contractError e)) := by
  obtain ⟨sr, rr⟩ := ledger
  cases sr <;> cases rr <;>
    simp [SquaringTaskResponseSender.sendAggregatedResponse]

/-- C3 witness: a concrete run in which the transaction is submitted but
    the receipt wait fails; the failure comes back as an error value. -/
theorem send_aggregated_response_surfaces_failure_witness :
    sampleSender.sendAggregatedResponse sampleIndexedTask sampleTaskResponse
        sampleAggResult sampleFailLedger =
      .error (.contractError "tx rejected") :=
  (send_aggregated_response_surfaces_failure sampleSender sampleIndexedTask
    sampleTaskResponse sampleAggResult sampleFailLedger).2.2 "tx rejected" rfl rfl

/-- C4: every context returned successfully by `AggregatorContext::new`
    has `task_aggregator` set, so for such a context the
    `Task aggregator not initialized` branches are unreachable:
    `process_signed_task_response` always succeeds, and `register_task`
    returns exactly the engine outcome (success on engine success, the
    engine error mapped through `Context(e.to_string())` on engine
    failure), never the not-initialized error. -/
theorem new_context_engine_initialized (port : String) (tm w : Nat)
    (env : BlueprintEnvironment) (clientOutcome : Except String Unit)
    (blsServiceOutcome : Except String Nat) (ctx : AggregatorContext)
    (h : AggregatorContext.new port tm w env clientOutcome blsServiceOutcome =
      .ok ctx) :
    ctx.task_aggregator.isSome = true ∧
    (∀ resp, (ctx.processSignedTaskResponse resp).isOk = true) ∧
    (∀ idx task, (ctx.registerTask idx task (.ok ())).isOk = true) ∧
    (∀ idx task e, ctx.registerTask idx task (.error e) =
      .error (.Context (aggErrToString e))) := by
  cases clientOutcome with
  | error e => simp [AggregatorContext.new] at h
  | ok u =>
    cases blsServiceOutcome with
    | error e => simp [AggregatorContext.new] at h
    | ok bls =>
      simp only [AggregatorContext.new, Except.ok.injEq] at h
      subst h
      refine ⟨rfl, fun resp => rfl, fun idx task => rfl, fun idx task e => rfl⟩

/-- C4 witness: `new` run on concrete inputs with both external calls
    succeeding. -/
theorem new_context_engine_initialized_witness :
    sampleCtx.task_aggregator.isSome = true ∧
    (∀ resp, (sampleCtx.processSignedTaskResponse resp).isOk = true) ∧
    (∀ idx task, (sampleCtx.registerTask idx task (.ok ())).isOk = true) ∧
    (∀ idx task e, sampleCtx.registerTask idx task (.error e) =
      .error (.Context (aggErrToString e))) :=
  new_context_engine_initialized "127.0.0.1:8081" 5 7 sampleEnv (.ok ()) (.ok 1)
    sampleCtx rfl

/-- C5 counterexample: a concrete signed response is accepted by the
    intake path (`process_signed_task_response` succeeds), yet the
    response cache of the resulting context is still empty — the accepted
    response was not stored in the Response Cache. -/
theorem response_cache_unused_cex :
    (sampleCtx.processSignedTaskResponse sampleSigned).isOk = true ∧
    (sampleCtx.processSignedTaskResponse sampleSigned).map
        (fun c => c.response_cache) = .ok [] := by
  exact ⟨rfl, rfl⟩

/-- C5 (amended): the Response Cache is never written: it is created
    empty by `AggregatorContext::new` and is left untouched by
    `process_signed_task_response`, so it never holds any accepted
    response and its size is trivially bounded (by zero along any run
    from `new`). -/
theorem response_cache_never_written (port : String) (tm w : Nat)
    (env : BlueprintEnvironment) (clientOutcome : Except String Unit)
    (blsServiceOutcome : Except String Nat)
    (ctx0 ctx ctx2 : AggregatorContext) (resp : SignedTaskResponse) :
    (AggregatorContext.new port tm w env clientOutcome blsServiceOutcome =
        .ok ctx0 → ctx0.response_cache = []) ∧
    (ctx.processSignedTaskResponse resp = .ok ctx2 →
      ctx2.response_cache = ctx.response_cache) := by
  constructor
  · intro h
    cases clientOutcome with
    | error e => simp [AggregatorContext.new] at h
    | ok u =>
      cases blsServiceOutcome with
      | error e => simp [AggregatorContext.new] at h
      | ok bls =>
        simp only [AggregatorContext.new, Except.ok.injEq] at h
        subst h
        rfl
  · intro h
    unfold AggregatorContext.processSignedTaskResponse at h
    cases ha : ctx.task_aggregator with
    | none => rw [ha] at h; exact absurd h (by simp)
    | some agg =>
      rw [ha] at h
      simp only [Except.ok.injEq] at h
      subst h
      rfl

/-- C5 witness: the cache equations instantiated on the concrete context
    built by `new` and on a concrete accepted response. -/
theorem response_cache_never_written_witness :
    sampleCtx.response_cache = [] ∧
    sampleProcessedCtx.response_cache = sampleCtx.response_cache :=
  ⟨(response_cache_never_written "127.0.0.1:8081" 5 7 sampleEnv (.ok ()) (.ok 1)
      sampleCtx sampleCtx sampleProcessedCtx sampleSigned).1 rfl,
    (response_cache_never_written "127.0.0.1:8081" 5 7 sampleEnv (.ok ()) (.ok 1)
      sampleCtx sampleCtx sampleProcessedCtx sampleSigned).2 rfl⟩

/-- C6 counterexample: two concrete requests about different, unrelated
    tasks contend — serving either one acquires the same single mutex
    (the one `start` wraps around the whole context), and that mutex
    guards the task registry and the response cache (indeed the whole
    context) at once, refuting per-entry mutual exclusion. -/
theorem intake_global_lock_cex :
    requestsContend sampleReqA sampleReqB ∧
    sampleReqA.taskIndex ≠ sampleReqB.taskIndex ∧
    StateComponent.taskRegistry ∈
      lockGuardedComponents (handlerLockAcquired sampleReqA) ∧
    StateComponent.responseCache ∈
      lockGuardedComponents (handlerLockAcquired sampleReqA) := by
  exact ⟨rfl, by decide, by decide, by decide⟩

/-- C6 (amended): the intake endpoint serializes requests behind one
    global lock: `start` wraps the entire `AggregatorContext` in a single
    `Arc<Mutex<_>>` and the handler holds that mutex for the whole call,
    so every pair of requests — including requests for unrelated tasks —
    contends on the same lock, which guards every component of the shared
    state at once (registry, cache, engine state and the rest). -/
theorem intake_single_global_lock (r1 r2 : RpcRequest) :
    requestsContend r1 r2 ∧
    (∀ c : StateComponent, c ∈ lockGuardedComponents (handlerLockAcquired r1)) := by
  refine ⟨rfl, fun c => ?_⟩
  cases c <;> simp [lockGuardedComponents, handlerLockAcquired]

/-- C7 counterexample: on a concrete context, a shutdown whose engine
    stop completes within the grace period and one whose grace period
    expires return the identical value to the caller — the outcome is
    distinguishable only in the log, so shutdown does not report to its
    caller whether it completed cleanly or timed out. -/
theorem shutdown_outcome_not_reported_cex :
    (sampleCtx.shutdown .stopped).ret = (sampleCtx.shutdown .timedOut).ret ∧
    (sampleCtx.shutdown .stopped).logs ≠ (sampleCtx.shutdown .timedOut).logs := by
  exact ⟨rfl, by decide⟩

/-- C7 (amended): shutdown bounds the attempt to stop the aggregation
    engine by a fixed 10-second grace period, after which the stop
    attempt is abandoned (its future is dropped) and shutdown proceeds;
    in every case it sets the shutdown flag and returns unit, recording
    whether the stop completed cleanly, failed or timed out only in the
    log (an error entry on grace-period expiry), not in a value returned
    to the caller. -/
theorem shutdown_bounded_logged (ctx : AggregatorContext) (o : StopOutcome) :
    shutdownGracePeriodSecs = 10 ∧
    (ctx.shutdown o).ctx.shutdownFlag = true ∧
    (ctx.shutdown o).ret = () ∧
    (ctx.task_aggregator.isSome = true → o = .timedOut →
      LogEvent.error "Timeout while stopping task aggregator" ∈
        (ctx.shutdown o).logs) := by
  refine ⟨rfl, rfl, rfl, fun hsome ho => ?_⟩
  subst ho
  cases ha : ctx.task_aggregator with
  | none => rw [ha] at hsome; simp at hsome
  | some agg => simp [AggregatorContext.shutdown, ha]

/-- C7 witness: shutdown run on a concrete context whose grace period
    expires. -/
theorem shutdown_bounded_logged_witness :
    shutdownGracePeriodSecs = 10 ∧
    (sampleCtx.shutdown .timedOut).ctx.shutdownFlag = true ∧
    (sampleCtx.shutdown .timedOut).ret = () ∧
    LogEvent.error "Timeout while stopping task aggregator" ∈
      (sampleCtx.shutdown .timedOut).logs :=
  ⟨(shutdown_bounded_logged sampleCtx .timedOut).1,
    (shutdown_bounded_logged sampleCtx .timedOut).2.1,
    (shutdown_bounded_logged sampleCtx .timedOut).2.2.1,
    (shutdown_bounded_logged sampleCtx .timedOut).2.2.2 rfl rfl⟩

/-- C8: the RPC surface registers exactly one method, named
    `process_signed_task_response`, and the method registered under that
    name is the handler that extracts the nested `params` field and
    decodes it as a `SignedTaskResponse`; the HTTP server's cross-origin
    allow-list admits every origin. -/
theorem rpc_surface_single_method_permissive_cors :
    startServerMethods.map Prod.fst = ["process_signed_task_response"] ∧
    startServerMethods.length = 1 ∧
    startServerMethods.lookup "process_signed_task_response" = some rpcHandler ∧
    (∀ origin : String, corsAllows startServerCors origin = true) := by
  refine ⟨rfl, rfl, rfl, fun origin => rfl⟩

/-- C9: the submission credential is fixed: for any two configurations —
    any wallet carried by the aggregator context and any process
    environment — the transaction assembled by
    `send_aggregated_response` is signed with the same hardcoded private
    key and sent from the same hardcoded address, matching the literals
    in the source; moreover `AGGREGATOR_PRIVATE_KEY` reads the
    environment variable named `PRIVATE_KEY`, so whenever `PRIVATE_KEY`
    is set both the operator key and the aggregator key take that same
    value. -/
theorem submission_credential_fixed (ctx1 ctx2 : AggregatorContext)
    (env1 env2 : EnvMap) (t : IndexedTask) (r : TaskResponse)
    (a : BlsAggregationServiceResponse) :
    (submissionTx ctx1 env1 t r a).signerKey =
        (submissionTx ctx2 env2 t r a).signerKey ∧
    (submissionTx ctx1 env1 t r a).fromAddr =
        (submissionTx ctx2 env2 t r a).fromAddr ∧
    (submissionTx ctx1 env1 t r a).signerKey =
      "0x2a871d0798f97d79848a013d4936a73bf4cc922c825d33c1cf7073dff6d409c6" ∧
    (submissionTx ctx1 env1 t r a).fromAddr =
      "a0Ee7A142d267C1f36714E4a8F75612F20a79720" ∧
    (∀ env : EnvMap, ∀ v, env "PRIVATE_KEY" = some v →
      PRIVATE_KEY env = v ∧ AGGREGATOR_PRIVATE_KEY env = v ∧
        PRIVATE_KEY env = AGGREGATOR_PRIVATE_KEY env) := by
  refine ⟨rfl, rfl, rfl, rfl, fun env v h => ?_⟩
  simp [PRIVATE_KEY, AGGREGATOR_PRIVATE_KEY, h]

/-- C9 witness: with the environment variable `PRIVATE_KEY` concretely
    set, the operator key and the aggregator key coincide. -/
theorem submission_credential_fixed_witness :
    PRIVATE_KEY sampleEnvMap = "aa" ∧
    AGGREGATOR_PRIVATE_KEY sampleEnvMap = "aa" ∧
    PRIVATE_KEY sampleEnvMap = AGGREGATOR_PRIVATE_KEY sampleEnvMap :=
  (submission_credential_fixed sampleCtx sampleCtx sampleEnvMap sampleEnvMap
    sampleIndexedTask sampleTaskResponse sampleAggResult).2.2.2.2 sampleEnvMap
    "aa" rfl

/-- C10: for every `IndexedTask`, `quorum_threshold_percentage` returns
    the stored `quorumThresholdPercentage` truncated to 8 bits — the
    stored value modulo `2 ^ 8` — so the result is always below 256,
    agrees with the stored value modulo 256, and any stored threshold of
    256 or more is silently reduced below its stored value rather than
    rejected (the accessor is total and returns no error). -/
theorem quorum_threshold_truncated (t : IndexedTask) :
    t.quorum_threshold_percentage = t.task.quorumThresholdPercentage % 2 ^ 8 ∧
    t.quorum_threshold_percentage < 2 ^ 8 ∧
    t.quorum_threshold_percentage ≡ t.task.quorumThresholdPercentage [MOD 2 ^ 8] ∧
    (2 ^ 8 ≤ t.task.quorumThresholdPercentage →
      t.quorum_threshold_percentage < t.task.quorumThresholdPercentage) := by
  refine ⟨rfl, Nat.mod_lt _ (by norm_num), Nat.mod_modEq _ _, fun h => ?_⟩
  exact lt_of_lt_of_le (Nat.mod_lt _ (by norm_num)) h

/-- C10 witness: a concrete task whose stored threshold is 300 comes back
    as 44, silently reduced below the stored value. -/
theorem quorum_threshold_truncated_witness :
    sampleWideTask.quorum_threshold_percentage =
        sampleWideTask.task.quorumThresholdPercentage % 2 ^ 8 ∧
    sampleWideTask.quorum_threshold_percentage <
        sampleWideTask.task.quorumThresholdPercentage :=
  ⟨(quorum_threshold_truncated sampleWideTask).1,
    (quorum_threshold_truncated sampleWideTask).2.2.2 (by decide)⟩

end PhalaAvs
